import Mathlib

/-!
Verification of the appliance-classification and capability-state resolution
core of the alexa_media custom component.

The Python source is shallowly embedded: JSON records become structures with
optional fields (a missing key is `none`), fallible dictionary accesses become
`Except String` (the error string records the Python exception), and values of
dynamic type become a small `JsonVal` type.  An empty Python `properties` dict
is modelled as an absent one, because the code only tests its truthiness, under
which the two are indistinguishable.  Python's timezone-aware datetimes are
modelled as UTC microsecond counts (`Int`), which is exactly the ordering the
source compares with `>=`.
-/

/-- Dynamic JSON values appearing as capability-state `value` payloads.
Objects are modelled with string-valued fields, which covers every payload
shape the embedded code inspects (the acoustic resolver only unwraps a
`value` field holding a detection string). -/
inductive JsonVal where
  | vStr (s : String)
  | vInt (n : Int)
  | vBool (b : Bool)
  | vObjStr (fields : List (String × String))
deriving DecidableEq

/-- Python `d[key]`: the value when present, a `KeyError` otherwise. -/
def req {α : Type} (o : Option α) (key : String) : Except String α :=
  match o with
  | some v => Except.ok v
  | none => Except.error ("KeyError: " ++ key)

/-- Truthiness of an optional Python string (`None` and `""` are falsy). -/
def truthyStr (o : Option String) : Bool :=
  match o with
  | some s => decide (s ≠ "")
  | none => false

/-! ## Model of datetime.strptime with format `%Y-%m-%dT%H:%M:%S.%f%z`

The parser mirrors the regular expressions Python's `_strptime` builds for
this fixed format, followed by the range validation the `datetime`
constructor performs (both failure modes surface as `ValueError` in Python,
so both are `none` here).  The result is the UTC instant in microseconds. -/

def digitVal (c : Char) : Nat := c.toNat - '0'.toNat

/-- Maximal leading run of decimal digits. -/
def takeDigits : List Char → List Char × List Char
  | [] => ([], [])
  | c :: rest =>
    if c.isDigit then
      let p := takeDigits rest
      (c :: p.1, p.2)
    else ([], c :: rest)

def natOfDigits (ds : List Char) : Nat :=
  ds.foldl (fun acc c => acc * 10 + digitVal c) 0

/-- Read a 1- or 2-digit numeric field (the shape of `%m`, `%d`, `%H`, `%M`, `%S`). -/
def readNum2 (cs : List Char) : Option (Nat × List Char) :=
  let p := takeDigits cs
  if p.1.length = 1 ∨ p.1.length = 2 then some (natOfDigits p.1, p.2) else none

/-- Read the exactly-4-digit `%Y` field. -/
def readYear (cs : List Char) : Option (Nat × List Char) :=
  let p := takeDigits cs
  if p.1.length = 4 then some (natOfDigits p.1, p.2) else none

def expectChar (c : Char) : List Char → Option (List Char)
  | x :: rest => if x = c then some rest else none
  | [] => none

def isLeapYear (y : Nat) : Bool :=
  (y % 4 = 0 && y % 100 ≠ 0) || y % 400 = 0

def daysInMonth (y m : Nat) : Nat :=
  if m = 2 then (if isLeapYear y then 29 else 28)
  else if m = 4 ∨ m = 6 ∨ m = 9 ∨ m = 11 then 30
  else 31

/-- Day count of a civil date (valid for years from 1), strictly monotone in
chronological order; day 0 is 0000-03-01. -/
def daysFromCivil (y m d : Nat) : Nat :=
  let y1 := if m ≤ 2 then y - 1 else y
  let era := y1 / 400
  let yoe := y1 % 400
  let mp := (m + 9) % 12
  let doy := (153 * mp + 2) / 5 + d - 1
  let doe := yoe * 365 + yoe / 4 - yoe / 100 + doy
  era * 146097 + doe

/-- The `%z` field: literal uppercase `Z`, or a sign, two hour digits, an
optional colon, two minute digits (tens digit 0-5), optionally followed by an
optional colon, two second digits (tens digit 0-5) and an optional fraction of
1-6 digits.  When a seconds part is present, the colon before it must agree
with the colon before the minutes: CPython's _strptime raises ValueError on
mixed-colon offsets such as +0000:30 (int of a colon slice) and +00:0030
("Inconsistent use of :"), so both are `none` here.  The result is the signed
offset in microseconds; offsets of 24 hours or more make the timezone
constructor raise, hence `none`. -/
def parseTzOffset (cs : List Char) : Option Int :=
  match cs with
  | ['Z'] => some 0
  | sign :: rest =>
    if sign = '+' ∨ sign = '-' then
      match rest with
      | h1 :: h2 :: rest2 =>
        if h1.isDigit ∧ h2.isDigit then
          let hh := digitVal h1 * 10 + digitVal h2
          let hourColon := decide (rest2.head? = some ':')
          let rest3 := match rest2 with
            | ':' :: r => r
            | r => r
          match rest3 with
          | m1 :: m2 :: rest4 =>
            if m1.isDigit ∧ digitVal m1 ≤ 5 ∧ m2.isDigit then
              let mm := digitVal m1 * 10 + digitVal m2
              let secPart : Option Nat :=
                match rest4 with
                | [] => some 0
                | r4 =>
                  let secColon := decide (r4.head? = some ':')
                  let rest5 := match r4 with
                    | ':' :: r => r
                    | r => r
                  if secColon = hourColon then
                    match rest5 with
                    | s1 :: s2 :: rest6 =>
                      if s1.isDigit ∧ digitVal s1 ≤ 5 ∧ s2.isDigit then
                        let ss := digitVal s1 * 10 + digitVal s2
                        match rest6 with
                        | [] => some (ss * 1000000)
                        | '.' :: fs =>
                          let fp := takeDigits fs
                          if (1 ≤ fp.1.length ∧ fp.1.length ≤ 6) ∧ fp.2 = [] then
                            some (ss * 1000000 + natOfDigits fp.1 * 10 ^ (6 - fp.1.length))
                          else none
                        | _ => none
                      else none
                    | _ => none
                  else none
              match secPart with
              | none => none
              | some smicro =>
                let total : Nat := (hh * 3600 + mm * 60) * 1000000 + smicro
                if total < 86400 * 1000000 then
                  some (if sign = '-' then -(total : Int) else (total : Int))
                else none
            else none
          | _ => none
        else none
      | _ => none
    else none
  | [] => none

/-- Model of `datetime.strptime(s, "%Y-%m-%dT%H:%M:%S.%f%z")` followed by the
aware-datetime ordering key: the UTC instant in microseconds, or `none` when
Python would raise `ValueError`.  The `T` separator is matched
case-insensitively, as Python compiles the whole format with IGNORECASE. -/
def parseTimeOfSample (s : String) : Option Int :=
  match readYear s.toList with
  | none => none
  | some (y, r1) =>
    match expectChar '-' r1 with
    | none => none
    | some r2 =>
      match readNum2 r2 with
      | none => none
      | some (mo, r3) =>
        match expectChar '-' r3 with
        | none => none
        | some r4 =>
          match readNum2 r4 with
          | none => none
          | some (d, r5) =>
            match r5 with
            | t :: r6 =>
              if t = 'T' ∨ t = 't' then
                match readNum2 r6 with
                | none => none
                | some (h, r7) =>
                  match expectChar ':' r7 with
                  | none => none
                  | some r8 =>
                    match readNum2 r8 with
                    | none => none
                    | some (mi, r9) =>
                      match expectChar ':' r9 with
                      | none => none
                      | some r10 =>
                        match readNum2 r10 with
                        | none => none
                        | some (sec, r11) =>
                          match expectChar '.' r11 with
                          | none => none
                          | some r12 =>
                            let fp := takeDigits r12
                            if 1 ≤ fp.1.length ∧ fp.1.length ≤ 6 then
                              let micro := natOfDigits fp.1 * 10 ^ (6 - fp.1.length)
                              match parseTzOffset fp.2 with
                              | none => none
                              | some off =>
                                if 1 ≤ y ∧ (1 ≤ mo ∧ mo ≤ 12) ∧
                                    (1 ≤ d ∧ d ≤ daysInMonth y mo) ∧
                                    h ≤ 23 ∧ mi ≤ 59 ∧ sec ≤ 59 then
                                  let localMicro : Nat :=
                                    daysFromCivil y mo d * 86400000000 +
                                      (h * 3600 + mi * 60 + sec) * 1000000 + micro
                                  some ((localMicro : Int) - off)
                                else none
                            else none
              else none
            | [] => none

/-! ## Capability-state records and the resolver -/

/-- One capability-state record, as held per entity in the coordinator data.
A missing JSON key is `none`. -/
structure CapState where
  ns? : Option String := none
  name? : Option String := none
  inst? : Option String := none
  value? : Option JsonVal := none
  timeOfSample? : Option String := none
deriving DecidableEq

/-- Coordinator data: `None`, or a mapping from entity id to its record list
(an empty mapping and a missing entity key behave identically in the code). -/
def CoordData := Option (List (String × List CapState))

def lookupData (d : CoordData) (eid : String) : Option (List CapState) :=
  match d with
  | none => none
  | some l => l.lookup eid

/-- Model of `is_cap_state_still_acceptable`: with a cutoff, a record is
rejected exactly when it carries a truthy `timeOfSample` that parses to an
instant before the cutoff; a `ValueError` from parsing is swallowed. -/
def is_cap_state_still_acceptable (c : CapState) (since : Option Int) : Bool :=
  match since with
  | none => true
  | some sv =>
    match c.timeOfSample? with
    | none => true
    | some ts =>
      if ts = "" then true
      else
        match parseTimeOfSample ts with
        | none => true
        | some t => decide (sv ≤ t)

/-- The record-matching test of `parse_value_from_coordinator`'s loop. -/
def matchesTarget (ns nm : String) (inst : Option String) (c : CapState) : Bool :=
  decide (c.ns? = some ns) && decide (c.name? = some nm) &&
    (decide (c.inst? = inst) || inst.isNone)

/-- The scan of `parse_value_from_coordinator` over one entity's records:
acceptability is only consulted on the first match, and a stale first match
ends the whole scan with `None`. -/
def resolveCapStates (ns nm : String) (since : Option Int) (inst : Option String) :
    List CapState → Option JsonVal
  | [] => none
  | c :: rest =>
    if matchesTarget ns nm inst c then
      if is_cap_state_still_acceptable c since then c.value? else none
    else resolveCapStates ns nm since inst rest

/-- Model of `parse_value_from_coordinator`. -/
def parse_value_from_coordinator (d : CoordData) (eid ns nm : String)
    (since : Option Int) (inst : Option String) : Option JsonVal :=
  match lookupData d eid with
  | none => none
  | some records => resolveCapStates ns nm since inst records

/-- Model of `parse_detection_state_from_coordinator`. -/
def parse_detection_state_from_coordinator (d : CoordData) (eid ns : String) :
    Option JsonVal :=
  parse_value_from_coordinator d eid ns "detectionState" none none

/-- Model of `parse_acoustic_event_from_coordinator`: additionally unwraps a
dict value carrying a `value` field. -/
def parse_acoustic_event_from_coordinator (d : CoordData) (eid mode : String) :
    Option JsonVal :=
  match parse_value_from_coordinator d eid "Alexa.AcousticEventSensor" mode none none with
  | none => none
  | some v =>
    match v with
    | JsonVal.vObjStr fields =>
      match fields.lookup "value" with
      | some s => some (JsonVal.vStr s)
      | none => some v
    | _ => some v

/-! ## Resolver lemmas -/

/-- The resolver scan returns the value of the first matching record, gated by
its acceptability, and nothing else. -/
theorem resolve_eq_find (ns nm : String) (since : Option Int) (inst : Option String) :
    ∀ records : List CapState,
      resolveCapStates ns nm since inst records =
        match records.find? (matchesTarget ns nm inst) with
        | none => none
        | some r => if is_cap_state_still_acceptable r since then r.value? else none
  | [] => by simp [resolveCapStates]
  | c :: rest => by
    cases h : matchesTarget ns nm inst c with
    | true =>
      simp [resolveCapStates, h, List.find?_cons_of_pos _ h]
    | false =>
      rw [List.find?_cons_of_neg _ (by simp [h])]
      simpa [resolveCapStates, h] using resolve_eq_find ns nm since inst rest

/-- C3: without a cutoff, the resolver returns the value of the first record
(in list order) matching namespace, name, and the optional instance filter,
and is absent when no record matches. -/
theorem claim_C3 (d : CoordData) (eid ns nm : String) (inst : Option String)
    (records : List CapState) (h : lookupData d eid = some records) :
    parse_value_from_coordinator d eid ns nm none inst =
      (records.find? (matchesTarget ns nm inst)).bind (fun r => r.value?) := by
  unfold parse_value_from_coordinator
  rw [h]
  show resolveCapStates ns nm none inst records = _
  rw [resolve_eq_find]
  cases records.find? (matchesTarget ns nm inst) <;>
    simp [is_cap_state_still_acceptable]

def recC3a : CapState :=
  { ns? := some "N", name? := some "n", inst? := some "1",
    value? := some (JsonVal.vStr "A") }

def recC3b : CapState :=
  { ns? := some "N", name? := some "n", inst? := some "2",
    value? := some (JsonVal.vStr "B") }

def dC3 : CoordData := some [("e1", [recC3a, recC3b])]

/-- Witness for C3: with two records of instances 1 and 2, querying instance 2
returns the second record's value. -/
theorem claim_C3_witness :
    lookupData dC3 "e1" = some [recC3a, recC3b] ∧
    parse_value_from_coordinator dC3 "e1" "N" "n" none (some "2")
      = some (JsonVal.vStr "B") := by
  refine ⟨rfl, ?_⟩
  rw [claim_C3 dC3 "e1" "N" "n" (some "2") [recC3a, recC3b] rfl]
  decide

/-! ## Sensor state mappers

Models of MotionSensor (motion_sensor.py), AcousticEventSensorBase
(acoustic_event_sensors.py), ContactSensor (contact_sensor.py) and
AlexaContact (binary_sensor.py).  The held state of a coordinator entity is
the Python attribute holding a bool or None, modelled as `Option Bool`. -/

/-- MotionSensor: the detection-state-to-bool map used at initialization
(Python compares the optional raw value with the string DETECTED). -/
def motionGetDetectionState (ds : Option JsonVal) : Bool :=
  decide (ds = some (JsonVal.vStr "DETECTED"))

/-- MotionSensor.__init__: the initial held state. -/
def motionSensorInitIsOn (d : CoordData) (eid : String) : Option Bool :=
  some (motionGetDetectionState
    (parse_detection_state_from_coordinator d eid "Alexa.MotionSensor"))

/-- MotionSensor._handle_coordinator_update: the held state after an update. -/
def motionSensorUpdateIsOn (d : CoordData) (eid : String) (prev : Option Bool) :
    Option Bool :=
  match parse_detection_state_from_coordinator d eid "Alexa.MotionSensor" with
  | none => prev
  | some v =>
    if ¬ (v = JsonVal.vStr "DETECTED" ∨ v = JsonVal.vStr "NOT_DETECTED") then
      some false
    else some (decide (v = JsonVal.vStr "DETECTED"))

/-- AcousticEventSensorBase subclass __init__: the initial held state for a
given detection-mode key. -/
def acousticSensorInitIsOn (d : CoordData) (eid mode : String) : Option Bool :=
  some (decide (parse_acoustic_event_from_coordinator d eid mode
    = some (JsonVal.vStr "DETECTED")))

/-- AcousticEventSensorBase._handle_coordinator_update (a falsy
detection-state key returns early). -/
def acousticSensorUpdateIsOn (d : CoordData) (eid mode : String)
    (prev : Option Bool) : Option Bool :=
  if mode = "" then prev
  else
    match parse_acoustic_event_from_coordinator d eid mode with
    | none => prev
    | some v =>
      if ¬ (v = JsonVal.vStr "DETECTED" ∨ v = JsonVal.vStr "NOT_DETECTED") then
        some false
      else some (decide (v = JsonVal.vStr "DETECTED"))

/-- ContactSensor.is_on (contact_sensor.py): compares the optional detection
value with DETECTED, always yielding a bool. -/
def contactSensorIsOn (d : CoordData) (eid : String) : Bool :=
  decide (parse_detection_state_from_coordinator d eid "Alexa.ContactSensor"
    = some (JsonVal.vStr "DETECTED"))

/-- Truthiness of `coordinator.data and entity_id in coordinator.data`. -/
def coordinatorHasEntity (d : CoordData) (eid : String) : Bool :=
  match d with
  | none => false
  | some l => !l.isEmpty && (l.lookup eid).isSome

/-- ContactSensor.assumed_state (contact_sensor.py). -/
def contactSensorAssumedState (d : CoordData) (eid : String) : Bool :=
  ! coordinatorHasEntity d eid

/-- AlexaContact.is_on (binary_sensor.py): None when no value resolves. -/
def alexaContactIsOn (d : CoordData) (eid : String) : Option Bool :=
  match parse_detection_state_from_coordinator d eid "Alexa.ContactSensor" with
  | none => none
  | some v => some (decide (v = JsonVal.vStr "DETECTED"))

/-- AlexaContact.assumed_state (binary_sensor.py). -/
def alexaContactAssumedState (d : CoordData) (eid : String) : Bool :=
  ! coordinatorHasEntity d eid

/-- C6 counterexample: on the first read with an absent value, MotionSensor
reports off (some false), not the unavailable state (none) the claim
requires. -/
theorem claim_C6_counterexample :
    parse_detection_state_from_coordinator none "e1" "Alexa.MotionSensor" = none ∧
    motionSensorInitIsOn none "e1" ≠ none := by
  exact ⟨rfl, by decide⟩

/-- C6 (amended): DETECTED maps to true, NOT_DETECTED to false, any other
resolved value to false, and an absent value leaves the held state unchanged
on updates; at initialization an absent value yields off (false), not
unavailable.  Stated for the motion, acoustic-event, and both contact sensor
implementations. -/
theorem claim_C6_amended :
    (∀ d eid prev,
      parse_detection_state_from_coordinator d eid "Alexa.MotionSensor"
        = some (JsonVal.vStr "DETECTED") →
      motionSensorUpdateIsOn d eid prev = some true) ∧
    (∀ d eid prev,
      parse_detection_state_from_coordinator d eid "Alexa.MotionSensor"
        = some (JsonVal.vStr "NOT_DETECTED") →
      motionSensorUpdateIsOn d eid prev = some false) ∧
    (∀ d eid prev v,
      parse_detection_state_from_coordinator d eid "Alexa.MotionSensor" = some v →
      v ≠ JsonVal.vStr "DETECTED" → v ≠ JsonVal.vStr "NOT_DETECTED" →
      motionSensorUpdateIsOn d eid prev = some false) ∧
    (∀ d eid prev,
      parse_detection_state_from_coordinator d eid "Alexa.MotionSensor" = none →
      motionSensorUpdateIsOn d eid prev = prev) ∧
    (∀ d eid,
      parse_detection_state_from_coordinator d eid "Alexa.MotionSensor" = none →
      motionSensorInitIsOn d eid = some false) ∧
    (∀ d eid mode prev, mode ≠ "" →
      parse_acoustic_event_from_coordinator d eid mode
        = some (JsonVal.vStr "DETECTED") →
      acousticSensorUpdateIsOn d eid mode prev = some true) ∧
    (∀ d eid mode prev, mode ≠ "" →
      parse_acoustic_event_from_coordinator d eid mode
        = some (JsonVal.vStr "NOT_DETECTED") →
      acousticSensorUpdateIsOn d eid mode prev = some false) ∧
    (∀ d eid mode prev v, mode ≠ "" →
      parse_acoustic_event_from_coordinator d eid mode = some v →
      v ≠ JsonVal.vStr "DETECTED" → v ≠ JsonVal.vStr "NOT_DETECTED" →
      acousticSensorUpdateIsOn d eid mode prev = some false) ∧
    (∀ d eid mode prev, mode ≠ "" →
      parse_acoustic_event_from_coordinator d eid mode = none →
      acousticSensorUpdateIsOn d eid mode prev = prev) ∧
    (∀ d eid mode,
      parse_acoustic_event_from_coordinator d eid mode = none →
      acousticSensorInitIsOn d eid mode = some false) ∧
    (∀ d eid v,
      parse_detection_state_from_coordinator d eid "Alexa.ContactSensor" = some v →
      contactSensorIsOn d eid = decide (v = JsonVal.vStr "DETECTED") ∧
      alexaContactIsOn d eid = some (decide (v = JsonVal.vStr "DETECTED"))) ∧
    (∀ d eid,
      parse_detection_state_from_coordinator d eid "Alexa.ContactSensor" = none →
      contactSensorIsOn d eid = false ∧ alexaContactIsOn d eid = none) := by
  refine ⟨?_, ?_, ?_, ?_, ?_, ?_, ?_, ?_, ?_, ?_, ?_, ?_⟩
  · intro d eid prev h
    unfold motionSensorUpdateIsOn
    rw [h]
    simp
  · intro d eid prev h
    unfold motionSensorUpdateIsOn
    rw [h]
    simp
  · intro d eid prev v h hD hN
    unfold motionSensorUpdateIsOn
    rw [h]
    simp [hD, hN]
  · intro d eid prev h
    unfold motionSensorUpdateIsOn
    rw [h]
  · intro d eid h
    unfold motionSensorInitIsOn motionGetDetectionState
    rw [h]
    simp
  · intro d eid mode prev hm h
    unfold acousticSensorUpdateIsOn
    rw [if_neg hm, h]
    simp
  · intro d eid mode prev hm h
    unfold acousticSensorUpdateIsOn
    rw [if_neg hm, h]
    simp
  · intro d eid mode prev v hm h hD hN
    unfold acousticSensorUpdateIsOn
    rw [if_neg hm, h]
    simp [hD, hN]
  · intro d eid mode prev hm h
    unfold acousticSensorUpdateIsOn
    rw [if_neg hm, h]
  · intro d eid mode h
    unfold acousticSensorInitIsOn
    rw [h]
    simp
  · intro d eid v h
    unfold contactSensorIsOn alexaContactIsOn
    rw [h]
    constructor
    · by_cases hv : v = JsonVal.vStr "DETECTED" <;> simp [hv]
    · rfl
  · intro d eid h
    unfold contactSensorIsOn alexaContactIsOn
    rw [h]
    simp

def dC6 : CoordData :=
  some [("e1", [{ ns? := some "Alexa.MotionSensor", name? := some "detectionState",
                  value? := some (JsonVal.vStr "DETECTED") }])]

/-- Witness for C6: a concrete DETECTED record turns the motion sensor on. -/
theorem claim_C6_amended_witness :
    parse_detection_state_from_coordinator dC6 "e1" "Alexa.MotionSensor"
      = some (JsonVal.vStr "DETECTED") ∧
    motionSensorUpdateIsOn dC6 "e1" (some false) = some true := by
  refine ⟨by decide, ?_⟩
  exact claim_C6_amended.1 dC6 "e1" (some false) (by decide)

/-- C10 counterexample: with no resolvable value, ContactSensor.is_on is
False while AlexaContact.is_on is None, so the two public interfaces are not
equivalent as the claim states. -/
theorem claim_C10_counterexample :
    alexaContactIsOn none "e1" ≠ some (contactSensorIsOn none "e1") := by
  decide

/-- C10 (amended): the two contact-sensor implementations agree on is_on
whenever the detection resolver yields a value (ContactSensor additionally
reports off where AlexaContact reports unknown when no value resolves), and
their assumed_state flags always agree. -/
theorem claim_C10_amended :
    (∀ d eid v,
      parse_detection_state_from_coordinator d eid "Alexa.ContactSensor" = some v →
      alexaContactIsOn d eid = some (contactSensorIsOn d eid)) ∧
    (∀ d eid, contactSensorAssumedState d eid = alexaContactAssumedState d eid) := by
  constructor
  · intro d eid v h
    unfold alexaContactIsOn contactSensorIsOn
    rw [h]
    simp
  · intro d eid
    rfl

def dC10 : CoordData :=
  some [("e1", [{ ns? := some "Alexa.ContactSensor", name? := some "detectionState",
                  value? := some (JsonVal.vStr "DETECTED") }])]

/-- Witness for C10: with a concrete DETECTED contact record both
implementations report on. -/
theorem claim_C10_amended_witness :
    parse_detection_state_from_coordinator dC10 "e1" "Alexa.ContactSensor"
      = some (JsonVal.vStr "DETECTED") ∧
    alexaContactIsOn dC10 "e1" = some (contactSensorIsOn dC10 "e1") := by
  refine ⟨by decide, ?_⟩
  exact claim_C10_amended.1 dC10 "e1" (JsonVal.vStr "DETECTED") (by decide)

/-! ## Appliance data model (device graph input) -/

structure SupportedProp where
  name? : Option String := none
deriving DecidableEq

/-- The `properties` object of a capability.  A Python `properties` value that
is an empty dict is modelled as an absent one (both are falsy and otherwise
unread). -/
structure CapProperties where
  retrievable? : Option Bool := none
  proactivelyReported? : Option Bool := none
  supported? : Option (List SupportedProp) := none
deriving DecidableEq

structure FriendlyNameValue where
  assetId? : Option String := none
deriving DecidableEq

structure FriendlyNameEntry where
  value? : Option FriendlyNameValue := none
deriving DecidableEq

structure CapResources where
  friendlyNames? : Option (List FriendlyNameEntry) := none
deriving DecidableEq

structure CapConfiguration where
  unitOfMeasure? : Option String := none
deriving DecidableEq

structure Capability where
  interfaceName? : Option String := none
  properties? : Option CapProperties := none
  inst? : Option String := none
  resources? : Option CapResources := none
  configuration? : Option CapConfiguration := none
deriving DecidableEq

structure DriverIdentity where
  ns? : Option String := none
deriving DecidableEq

structure AliasRec where
  friendlyName? : Option String := none
deriving DecidableEq

/-- An element of `alexaDeviceIdentifierList`; the code only distinguishes
dict elements (read with .get) from non-dict ones (skipped). -/
inductive DeviceIdEntry where
  | nonDict
  | dictEntry (dms? : Option String)
deriving DecidableEq

structure Appliance where
  applianceId? : Option String := none
  entityId? : Option String := none
  friendlyName? : Option String := none
  friendlyDescription? : Option String := none
  manufacturerName? : Option String := none
  modelName? : Option String := none
  connectedVia? : Option String := none
  applianceTypes? : Option (List String) := none
  customerDefinedDeviceType? : Option String := none
  driverIdentity? : Option DriverIdentity := none
  aliases? : Option (List AliasRec) := none
  alexaDeviceIdentifierList? : Option (List DeviceIdEntry) := none
  capabilities? : Option (List Capability) := none
deriving DecidableEq

/-- One bridge of the device graph; the doubly nested
`applianceDetails.applianceDetails` access is collapsed into one optional
field, and the dict of appliances into its value list (keys are unread). -/
structure BridgeRec where
  applianceDetails? : Option (List Appliance) := none
deriving DecidableEq

/-- One location; `amazonBridgeDetails.amazonBridgeDetails` is collapsed as
for BridgeRec. -/
structure LocationRec where
  amazonBridgeDetails? : Option (List BridgeRec) := none
deriving DecidableEq

/-- The network-details payload; the two `.get(..., {})` hops to the inner
location dict are collapsed into one optional field. -/
structure NetworkDetails where
  locationDetails? : Option (List LocationRec) := none
deriving DecidableEq

/-! ## Classification predicates -/

/-- Scan of `props["supported"]` for a property name; a list element lacking
the `name` key raises before any later element is seen. -/
def supportedHasName (propertyName : String) : List SupportedProp → Except String Bool
  | [] => Except.ok false
  | p :: rest =>
    match req p.name? "name" with
    | Except.error e => Except.error e
    | Except.ok n =>
      if n = propertyName then Except.ok true
      else supportedHasName propertyName rest

/-- The loop of `has_capability` over the capability list. -/
def hasCapabilityGo (interfaceName propertyName : String) :
    List Capability → Except String Bool
  | [] => Except.ok false
  | cap :: rest =>
    match req cap.interfaceName? "interfaceName" with
    | Except.error e => Except.error e
    | Except.ok iface =>
      if iface = interfaceName then
        match cap.properties? with
        | none => hasCapabilityGo interfaceName propertyName rest
        | some props =>
          match req props.retrievable? "retrievable" with
          | Except.error e => Except.error e
          | Except.ok r =>
            match (if r then Except.ok true
                   else req props.proactivelyReported? "proactivelyReported") with
            | Except.error e => Except.error e
            | Except.ok active =>
              if active then
                match req props.supported? "supported" with
                | Except.error e => Except.error e
                | Except.ok sup =>
                  match supportedHasName propertyName sup with
                  | Except.error e => Except.error e
                  | Except.ok found =>
                    if found then Except.ok true
                    else hasCapabilityGo interfaceName propertyName rest
              else hasCapabilityGo interfaceName propertyName rest
      else hasCapabilityGo interfaceName propertyName rest

/-- Model of `has_capability`. -/
def has_capability (a : Appliance) (interfaceName propertyName : String) :
    Except String Bool :=
  match req a.capabilities? "capabilities" with
  | Except.error e => Except.error e
  | Except.ok caps => hasCapabilityGo interfaceName propertyName caps

/-- Model of `is_hue_v1`. -/
def is_hue_v1 (a : Appliance) : Bool :=
  decide (a.manufacturerName? = some "Royal Philips Electronics")

/-- Model of `is_skill` (Python returns a falsy string or a bool; as a truth
value this is equality of the defaulted namespace with SKILL). -/
def is_skill (a : Appliance) : Bool :=
  let ns := ((a.driverIdentity?.bind (fun di => di.ns?)).getD "")
  decide (ns ≠ "") && decide (ns = "SKILL")

/-- Model of `is_known_ha_bridge`. -/
def is_known_ha_bridge (a : Option Appliance) : Bool :=
  match a with
  | none => false
  | some b =>
    decide (b.manufacturerName? = some "t0bst4r") ||
      decide (b.manufacturerName? = some "Matterbridge")

def isHexDigitCI (c : Char) : Bool :=
  c.isDigit || ('a' ≤ c && c ≤ 'f') || ('A' ≤ c && c ≤ 'F')

/-- The `([0-9A-F][0-9A-F]:){n}[0-9A-F][0-9A-F]` tail of the zigbee pattern,
consuming the whole remaining input. -/
def zigbeeGroups : Nat → List Char → Bool
  | 0, [a, b] => isHexDigitCI a && isHexDigitCI b
  | n + 1, a :: b :: c :: rest =>
    isHexDigitCI a && isHexDigitCI b && decide (c = ':') && zigbeeGroups n rest
  | _, _ => false

def lowerPrefixAAA : List Char := "aaa_sonarcloudservice_".toList

/-- Full case-insensitive match of the zigbee appliance-id pattern
`AAA_SonarCloudService_([0-9A-F][0-9A-F]:){7}[0-9A-F][0-9A-F]`. -/
def zigbeeFullmatch (s : String) : Bool :=
  let cs := s.toList
  decide ((cs.take 22).map Char.toLower = lowerPrefixAAA) &&
    zigbeeGroups 7 (cs.drop 22)

/-- Model of `is_local` (none of its accesses can raise). -/
def is_local (a : Appliance) : Bool :=
  if truthyStr a.connectedVia? then true
  else if decide ("ALEXA_VOICE_ENABLED" ∈ a.applianceTypes?.getD []) then
    ! is_skill a
  else if decide (a.manufacturerName? = some "Ledvance") ||
      decide (a.manufacturerName? = some "Sengled") ||
      decide (a.manufacturerName? = some "Amazon") then
    ! is_skill a
  else if decide (a.manufacturerName? = some "Third Reality") &&
      decide (a.friendlyDescription? = some "Third Reality smart device") then
    true
  else if decide (a.manufacturerName? = some "Amazon") &&
      decide (a.friendlyDescription? = some "Amazon Smart Plug") then
    true
  else zigbeeFullmatch (a.applianceId?.getD "")

/-- Model of `is_alexa_guard` (short-circuit: capabilities are only read when
the model name matches). -/
def is_alexa_guard (a : Appliance) : Except String Bool :=
  match req a.modelName? "modelName" with
  | Except.error e => Except.error e
  | Except.ok mn =>
    if mn = "REDROCK_GUARD_PANEL" then
      has_capability a "Alexa.SecurityPanelController" "armState"
    else Except.ok false

/-- Model of `is_temperature_sensor`. -/
def is_temperature_sensor (a : Appliance) : Except String Bool :=
  if is_local a then
    match has_capability a "Alexa.TemperatureSensor" "temperature" with
    | Except.error e => Except.error e
    | Except.ok hc =>
      if hc then
        match req a.friendlyDescription? "friendlyDescription" with
        | Except.error e => Except.error e
        | Except.ok fd =>
          Except.ok (decide (fd ≠ "Amazon Indoor Air Quality Monitor"))
      else Except.ok false
  else Except.ok false

/-- Model of `is_air_quality_sensor`. -/
def is_air_quality_sensor (a : Appliance) : Except String Bool :=
  match req a.friendlyDescription? "friendlyDescription" with
  | Except.error e => Except.error e
  | Except.ok fd =>
    if fd = "Amazon Indoor Air Quality Monitor" then
      if decide ("AIR_QUALITY_MONITOR" ∈ a.applianceTypes?.getD []) then
        match has_capability a "Alexa.TemperatureSensor" "temperature" with
        | Except.error e => Except.error e
        | Except.ok t =>
          if t then has_capability a "Alexa.RangeController" "rangeValue"
          else Except.ok false
      else Except.ok false
    else Except.ok false

/-- Model of `is_light`. -/
def is_light (a : Appliance) : Except String Bool :=
  if is_local a then
    if decide ("LIGHT" ∈ a.applianceTypes?.getD []) ||
        (decide ("SMARTPLUG" ∈ a.applianceTypes?.getD []) &&
          decide (a.customerDefinedDeviceType? = some "LIGHT")) then
      has_capability a "Alexa.PowerController" "powerState"
    else Except.ok false
  else Except.ok false

/-- Model of `is_contact_sensor`. -/
def is_contact_sensor (a : Appliance) : Except String Bool :=
  if is_local a then
    if decide ("CONTACT_SENSOR" ∈ a.applianceTypes?.getD []) then Except.ok true
    else has_capability a "Alexa.ContactSensor" "detectionState"
  else Except.ok false

/-- Model of `is_motion_sensor`. -/
def is_motion_sensor (a : Appliance) : Except String Bool :=
  if is_local a then
    if decide ("MOTION_SENSOR" ∈ a.applianceTypes?.getD []) then Except.ok true
    else has_capability a "Alexa.MotionSensor" "detectionState"
  else Except.ok false

/-- Model of `is_switch`. -/
def is_switch (a : Appliance) : Except String Bool :=
  if is_local a then
    if decide ("SMARTPLUG" ∈ a.applianceTypes?.getD []) ||
        decide ("SWITCH" ∈ a.applianceTypes?.getD []) then
      if decide (a.customerDefinedDeviceType? ≠ some "LIGHT") then
        has_capability a "Alexa.PowerController" "powerState"
      else Except.ok false
    else Except.ok false
  else Except.ok false

/-- Model of `is_light_sensor`. -/
def is_light_sensor (a : Appliance) : Except String Bool :=
  if is_local a then has_capability a "Alexa.LightSensor" "illuminance"
  else Except.ok false

/-- The twelve per-event detection-state property names, in source order. -/
def acousticDetectionModes : List String :=
  ["babyCryDetectionState", "beepingApplianceDetectionState",
   "carbonMonoxideSirenDetectionState", "coughDetectionState",
   "dogBarkDetectionState", "glassBreakDetectionState",
   "humanPresenceDetectionState", "runningWaterDetectionState",
   "smokeAlarmDetectionState", "smokeSirenDetectionState",
   "snoreDetectionState", "waterSoundsDetectionState"]

/-- The short-circuiting or-chain of per-event capability tests. -/
def anyDetectionMode (a : Appliance) : List String → Except String Bool
  | [] => Except.ok false
  | m :: rest =>
    match has_capability a "Alexa.AcousticEventSensor" m with
    | Except.error e => Except.error e
    | Except.ok b =>
      if b then Except.ok true else anyDetectionMode a rest

/-- Model of `is_acoustic_event_sensor`. -/
def is_acoustic_event_sensor (a : Appliance) : Except String Bool :=
  if is_local a then
    match has_capability a "Alexa.AcousticEventSensor" "detectionModes" with
    | Except.error e => Except.error e
    | Except.ok dm =>
      if dm then anyDetectionMode a acousticDetectionModes
      else Except.ok false
  else Except.ok false

/-- Model of `get_friendliest_name`'s alias scan: the first alias with a
truthy friendly name. -/
def firstAliasName : List AliasRec → Option String
  | [] => none
  | al :: rest =>
    match al.friendlyName? with
    | some s => if s ≠ "" then some s else firstAliasName rest
    | none => firstAliasName rest

/-- Model of `get_friendliest_name`. -/
def get_friendliest_name (a : Appliance) : Except String String :=
  match firstAliasName (a.aliases?.getD []) with
  | some s => Except.ok s
  | none => req a.friendlyName? "friendlyName"

/-- Model of `get_device_serial`: the first dict element's serial field, even
when that field is missing. -/
def deviceSerialScan : List DeviceIdEntry → Option String
  | [] => none
  | DeviceIdEntry.dictEntry d :: _ => d
  | DeviceIdEntry.nonDict :: rest => deviceSerialScan rest

def get_device_serial (a : Appliance) : Option String :=
  deviceSerialScan (a.alexaDeviceIdentifierList?.getD [])

def isBridgeBodyChar (c : Char) : Bool :=
  c.isDigit || ('a' ≤ c && c ≤ 'f') || ('A' ≤ c && c ≤ 'F') || decide (c = '-')

/-- Split at the first `#`, returning the parts before and after it. -/
def splitAtHash : List Char → Option (List Char × List Char)
  | [] => none
  | '#' :: rest => some ([], rest)
  | c :: rest =>
    match splitAtHash rest with
    | some p => some (c :: p.1, p.2)
    | none => none

/-- Group 1 of a full case-insensitive match of
`(AAA_SonarCloudService_[a-f0-9\-]+)#[0-9]+` against an appliance id, in the
input's original case. -/
def bridgeGroupOfApplianceId (s : String) : Option String :=
  let cs := s.toList
  if decide ((cs.take 22).map Char.toLower = lowerPrefixAAA) then
    match splitAtHash (cs.drop 22) with
    | none => none
    | some (body, digits) =>
      if !body.isEmpty && body.all isBridgeBodyChar &&
          !digits.isEmpty && digits.all Char.isDigit then
        some (String.mk (cs.take 22 ++ body))
      else none
  else none

/-- Model of `get_device_bridge` over the flattened appliance mapping. -/
def get_device_bridge (a : Appliance) (appliances : List (String × Appliance)) :
    Option Appliance :=
  if truthyStr a.connectedVia? then
    match bridgeGroupOfApplianceId (a.applianceId?.getD "") with
    | none => none
    | some bridgeId => appliances.lookup bridgeId
  else none

/-! ## parse_alexa_entities -/

/-- One air-quality sub-sensor entry `{sensorType, instance, unit}`. -/
structure AqSensor where
  sensorType : String
  inst : String
  unit : String
deriving DecidableEq

/-- An entity descriptor.  Python builds one dict per appliance and mutates it
with the extra keys before appending it (by reference) to the category lists;
the model computes the final record up front, which is observationally the
same since an exception discards all output. -/
structure AlexaEntity where
  id : String
  appliance_id : String
  name : String
  is_hue_v1 : Bool
  device_serial : String
  sensors : Option (List AqSensor) := none
  brightness : Option Bool := none
  color : Option Bool := none
  color_temperature : Option Bool := none
deriving DecidableEq

/-- The nine category lists returned by `parse_alexa_entities`. -/
structure AlexaEntities where
  light : List AlexaEntity := []
  guard : List AlexaEntity := []
  temperature : List AlexaEntity := []
  air_quality : List AlexaEntity := []
  contact_sensor : List AlexaEntity := []
  motion_sensor : List AlexaEntity := []
  smart_switch : List AlexaEntity := []
  light_sensor : List AlexaEntity := []
  acoustic_event_sensor : List AlexaEntity := []
deriving DecidableEq

/-- Python str.startswith, on character lists (structurally recursive so that
concrete evaluations reduce). -/
def charsLeadWith : List Char → List Char → Bool
  | [], _ => true
  | _ :: _, [] => false
  | p :: ps, c :: cs => decide (p = c) && charsLeadWith ps cs

def pyStartsWith (s pre : String) : Bool := charsLeadWith pre.toList s.toList

/-- The inner loop of the air-quality sub-sensor scan, over the friendly-name
entries of one instance-bearing capability. -/
def scanAqEntries (cap : Capability) (iv : String) :
    List FriendlyNameEntry → List AqSensor → Except String (List AqSensor)
  | [], acc => Except.ok acc
  | entry :: rest, acc =>
    match req entry.value? "value" with
    | Except.error e => Except.error e
    | Except.ok v =>
      match v.assetId? with
      | none => scanAqEntries cap iv rest acc
      | some assetId =>
        if assetId = "" ∨ ¬ pyStartsWith assetId "Alexa.AirQuality" then
          scanAqEntries cap iv rest acc
        else
          match req cap.configuration? "configuration" with
          | Except.error e => Except.error e
          | Except.ok config =>
            match req config.unitOfMeasure? "unitOfMeasure" with
            | Except.error e => Except.error e
            | Except.ok unit =>
              scanAqEntries cap iv rest
                (acc ++ [{ sensorType := assetId, inst := iv, unit := unit }])

/-- The outer loop of the air-quality sub-sensor scan: capabilities without a
truthy `instance` are skipped; a missing `resources` key raises KeyError and
a missing `friendlyNames` key makes the Python for-loop iterate None
(TypeError). -/
def scanAqCaps : List Capability → List AqSensor → Except String (List AqSensor)
  | [], acc => Except.ok acc
  | cap :: rest, acc =>
    if truthyStr cap.inst? then
      match req cap.resources? "resources" with
      | Except.error e => Except.error e
      | Except.ok res =>
        match res.friendlyNames? with
        | none => Except.error "TypeError: NoneType is not iterable"
        | some entries =>
          match scanAqEntries cap (cap.inst?.getD "") entries acc with
          | Except.error e => Except.error e
          | Except.ok acc2 => scanAqCaps rest acc2
    else scanAqCaps rest acc

/-- The air-quality branch of `parse_alexa_entities` building the sub-sensor
list. -/
def aqSensorList (a : Appliance) : Except String (List AqSensor) :=
  match req a.friendlyDescription? "friendlyDescription" with
  | Except.error e => Except.error e
  | Except.ok fd =>
    if fd = "Amazon Indoor Air Quality Monitor" then
      match req a.capabilities? "capabilities" with
      | Except.error e => Except.error e
      | Except.ok caps => scanAqCaps caps []
    else Except.ok []

/-- The category flags and extra fields computed for one appliance, in the
source's evaluation (and hence exception) order. -/
structure ClassifyFlags where
  g : Bool
  t : Bool
  aq : Bool
  sw : Bool
  li : Bool
  cs : Bool
  ms : Bool
  ls : Bool
  ae : Bool
  sensors : Option (List AqSensor)
  br : Option Bool
  co : Option Bool
  ct : Option Bool
deriving DecidableEq

def classifyFlags (a : Appliance) : Except String ClassifyFlags :=
  match is_alexa_guard a with
  | Except.error e => Except.error e
  | Except.ok g =>
  match is_temperature_sensor a with
  | Except.error e => Except.error e
  | Except.ok t =>
  match is_air_quality_sensor a with
  | Except.error e => Except.error e
  | Except.ok aq =>
  match (if aq then (aqSensorList a).map some else Except.ok none) with
  | Except.error e => Except.error e
  | Except.ok sensors =>
  match is_switch a with
  | Except.error e => Except.error e
  | Except.ok sw =>
  match is_light a with
  | Except.error e => Except.error e
  | Except.ok li =>
  match (if li then
      (match has_capability a "Alexa.BrightnessController" "brightness" with
       | Except.error e => Except.error e
       | Except.ok b =>
         match has_capability a "Alexa.ColorController" "color" with
         | Except.error e => Except.error e
         | Except.ok c =>
           match has_capability a "Alexa.ColorTemperatureController"
               "colorTemperatureInKelvin" with
           | Except.error e => Except.error e
           | Except.ok k => Except.ok (some b, some c, some k))
    else Except.ok (none, none, none)) with
  | Except.error e => Except.error e
  | Except.ok extras =>
  match is_contact_sensor a with
  | Except.error e => Except.error e
  | Except.ok cs =>
  match is_motion_sensor a with
  | Except.error e => Except.error e
  | Except.ok ms =>
  match is_light_sensor a with
  | Except.error e => Except.error e
  | Except.ok ls =>
  match is_acoustic_event_sensor a with
  | Except.error e => Except.error e
  | Except.ok ae =>
    Except.ok { g := g, t := t, aq := aq, sw := sw, li := li, cs := cs,
                ms := ms, ls := ls, ae := ae, sensors := sensors,
                br := extras.1, co := extras.2.1, ct := extras.2.2 }

/-- The `processed_appliance` base record of one appliance. -/
def baseEntity (a : Appliance) : Except String AlexaEntity :=
  match req a.entityId? "entityId" with
  | Except.error e => Except.error e
  | Except.ok eid =>
  match req a.applianceId? "applianceId" with
  | Except.error e => Except.error e
  | Except.ok aid =>
  match get_friendliest_name a with
  | Except.error e => Except.error e
  | Except.ok nm =>
    Except.ok
      { id := eid, appliance_id := aid, name := nm, is_hue_v1 := is_hue_v1 a,
        device_serial :=
          match get_device_serial a with
          | some s => if s ≠ "" then s else eid
          | none => eid }

/-- The full per-appliance step: the descriptor with its extra fields plus the
category flags. -/
def classifyAppliance (a : Appliance) : Except String (AlexaEntity × ClassifyFlags) :=
  match baseEntity a with
  | Except.error e => Except.error e
  | Except.ok base =>
  match classifyFlags a with
  | Except.error e => Except.error e
  | Except.ok f =>
    Except.ok
      ({ base with sensors := f.sensors, brightness := f.br, color := f.co,
                   color_temperature := f.ct }, f)

def appendIf (b : Bool) (l : List AlexaEntity) (e : AlexaEntity) : List AlexaEntity :=
  if b then l ++ [e] else l

/-- Appending one classified appliance to the nine category lists, in source
order (a dually matched air-quality appliance also lands in temperature). -/
def appendClassified (e : AlexaEntity) (f : ClassifyFlags) (acc : AlexaEntities) :
    AlexaEntities :=
  { light := appendIf f.li acc.light e,
    guard := appendIf f.g acc.guard e,
    temperature := acc.temperature ++ (if f.t then [e] else []) ++
      (if f.aq then [e] else []),
    air_quality := appendIf f.aq acc.air_quality e,
    contact_sensor := appendIf f.cs acc.contact_sensor e,
    motion_sensor := appendIf f.ms acc.motion_sensor e,
    smart_switch := appendIf f.sw acc.smart_switch e,
    light_sensor := appendIf f.ls acc.light_sensor e,
    acoustic_event_sensor := appendIf f.ae acc.acoustic_event_sensor e }

/-- The Python dict update `appliances[id] = appliance`: replace in place when
the key exists (keeping its position), else append. -/
def insertAppliance (m : List (String × Appliance)) (k : String) (a : Appliance) :
    List (String × Appliance) :=
  if (m.lookup k).isSome then
    m.map (fun p => if p.1 = k then (k, a) else p)
  else m ++ [(k, a)]

def flattenAppliances : List Appliance → List (String × Appliance) →
    Except String (List (String × Appliance))
  | [], m => Except.ok m
  | a :: rest, m =>
    match req a.applianceId? "applianceId" with
    | Except.error e => Except.error e
    | Except.ok aid => flattenAppliances rest (insertAppliance m aid a)

def flattenBridges : List BridgeRec → List (String × Appliance) →
    Except String (List (String × Appliance))
  | [], m => Except.ok m
  | b :: rest, m =>
    match req b.applianceDetails? "applianceDetails" with
    | Except.error e => Except.error e
    | Except.ok apps =>
      match flattenAppliances apps m with
      | Except.error e => Except.error e
      | Except.ok m2 => flattenBridges rest m2

def flattenLocations : List LocationRec → List (String × Appliance) →
    Except String (List (String × Appliance))
  | [], m => Except.ok m
  | l :: rest, m =>
    match req l.amazonBridgeDetails? "amazonBridgeDetails" with
    | Except.error e => Except.error e
    | Except.ok bridges =>
      match flattenBridges bridges m with
      | Except.error e => Except.error e
      | Except.ok m2 => flattenLocations rest m2

/-- Flattening of the device graph into the applianceId-keyed mapping. -/
def flattenNetworkDetails (nd : Option NetworkDetails) :
    Except String (List (String × Appliance)) :=
  flattenLocations ((nd.bind (fun n => n.locationDetails?)).getD []) []

/-- The main loop over the flattened appliance values, skipping appliances
whose resolved bridge is a known HA bridge. -/
def classifyLoop (m : List (String × Appliance)) :
    List Appliance → AlexaEntities → Except String AlexaEntities
  | [], acc => Except.ok acc
  | a :: rest, acc =>
    if is_known_ha_bridge (get_device_bridge a m) then classifyLoop m rest acc
    else
      match classifyAppliance a with
      | Except.error e => Except.error e
      | Except.ok c => classifyLoop m rest (appendClassified c.1 c.2 acc)

/-- Model of `parse_alexa_entities`. -/
def parse_alexa_entities (nd : Option NetworkDetails) : Except String AlexaEntities :=
  match flattenNetworkDetails nd with
  | Except.error e => Except.error e
  | Except.ok m => classifyLoop m (m.map (fun p => p.2)) {}

def badAppC7 : Appliance := { applianceId? := some "A1" }

def goodAppC7 : Appliance :=
  { applianceId? := some "A2", entityId? := some "E2",
    friendlyName? := some "Door", connectedVia? := some "Echo1",
    applianceTypes? := some ["CONTACT_SENSOR"], modelName? := some "m",
    friendlyDescription? := some "d", capabilities? := some [] }

def ndC7 : Option NetworkDetails :=
  some { locationDetails? := some [
    { amazonBridgeDetails? := some [
        { applianceDetails? := some [badAppC7, goodAppC7] } ] } ] }

def ndC7only : Option NetworkDetails :=
  some { locationDetails? := some [
    { amazonBridgeDetails? := some [
        { applianceDetails? := some [goodAppC7] } ] } ] }

def goodEntityC7 : AlexaEntity :=
  { id := "E2", appliance_id := "A2", name := "Door", is_hue_v1 := false,
    device_serial := "E2" }

/-- C7: the code does not skip a malformed appliance: one appliance lacking
entityId makes the whole classification pass abort with a KeyError, yielding
no descriptors at all, although the same companion appliance alone produces a
contact-sensor descriptor. -/
theorem claim_C7_behavior :
    parse_alexa_entities ndC7 = Except.error "KeyError: entityId" ∧
    parse_alexa_entities ndC7only = Except.ok { contact_sensor := [goodEntityC7] } := by
  exact ⟨rfl, rfl⟩

/-- C8: classification is a pure function of the snapshot; two runs on the
identical snapshot agree, and in the successful case all nine category lists
agree in content and order. -/
theorem claim_C8 (nd : Option NetworkDetails) :
    parse_alexa_entities nd = parse_alexa_entities nd ∧
    ∀ out1 out2, parse_alexa_entities nd = Except.ok out1 →
      parse_alexa_entities nd = Except.ok out2 →
      out1.light = out2.light ∧ out1.guard = out2.guard ∧
      out1.temperature = out2.temperature ∧ out1.air_quality = out2.air_quality ∧
      out1.contact_sensor = out2.contact_sensor ∧
      out1.motion_sensor = out2.motion_sensor ∧
      out1.smart_switch = out2.smart_switch ∧
      out1.light_sensor = out2.light_sensor ∧
      out1.acoustic_event_sensor = out2.acoustic_event_sensor := by
  refine ⟨rfl, ?_⟩
  intro out1 out2 h1 h2
  rw [h1] at h2
  cases h2
  exact ⟨rfl, rfl, rfl, rfl, rfl, rfl, rfl, rfl, rfl⟩

def goodAppC8 : Appliance :=
  { applianceId? := some "B2", entityId? := some "F2",
    friendlyName? := some "Window", connectedVia? := some "Echo1",
    applianceTypes? := some ["CONTACT_SENSOR"], modelName? := some "m",
    friendlyDescription? := some "d", capabilities? := some [] }

def ndC8 : Option NetworkDetails :=
  some { locationDetails? := some [
    { amazonBridgeDetails? := some [
        { applianceDetails? := some [goodAppC8] } ] } ] }

def outC8 : AlexaEntities :=
  { contact_sensor := [{ id := "F2", appliance_id := "B2", name := "Window",
                         is_hue_v1 := false, device_serial := "F2" }] }

/-- Witness for C8 at a concrete snapshot. -/
theorem claim_C8_witness :
    parse_alexa_entities ndC8 = Except.ok outC8 ∧
    outC8.contact_sensor = outC8.contact_sensor := by
  refine ⟨rfl, ?_⟩
  exact ((claim_C8 ndC8).2 outC8 outC8 rfl rfl).2.2.2.2.1

/-- C9: a Sengled appliance with no connectedVia, no voice-enabled type and a
non-zigbee appliance id is local exactly when it is not skill-derived. -/
theorem claim_C9 (a : Appliance)
    (h1 : a.manufacturerName? = some "Sengled")
    (h2 : truthyStr a.connectedVia? = false)
    (h3 : "ALEXA_VOICE_ENABLED" ∉ a.applianceTypes?.getD [])
    (_h4 : zigbeeFullmatch (a.applianceId?.getD "") = false) :
    ((a.driverIdentity?.bind (fun di => di.ns?)) = none → is_local a = true) ∧
    ((a.driverIdentity?.bind (fun di => di.ns?)) = some "SKILL" →
      is_local a = false) := by
  constructor
  · intro hns
    simp [is_local, h1, h2, h3, is_skill, hns]
  · intro hns
    simp [is_local, h1, h2, h3, is_skill, hns]

def aSengLocal : Appliance := { manufacturerName? := some "Sengled" }

def aSengSkill : Appliance :=
  { manufacturerName? := some "Sengled",
    driverIdentity? := some { ns? := some "SKILL" } }

/-- Witness for C9 at two concrete Sengled appliances. -/
theorem claim_C9_witness :
    is_local aSengLocal = true ∧ is_local aSengSkill = false := by
  constructor
  · exact (claim_C9 aSengLocal rfl rfl (by decide) (by decide)).1 rfl
  · exact (claim_C9 aSengSkill rfl rfl (by decide) (by decide)).2 rfl

/-! ## Claim C5: has_capability -/

/-- The spec-side usability test for one capability: matching interface, a
non-empty properties object with retrievable or proactivelyReported true, and
the property name among the supported names. -/
def capUsable (interfaceName propertyName : String) (cap : Capability) : Bool :=
  decide (cap.interfaceName? = some interfaceName) &&
    (match cap.properties? with
     | none => false
     | some props =>
       (props.retrievable?.getD false || props.proactivelyReported?.getD false) &&
         (props.supported?.getD []).any
           (fun sp => decide (sp.name? = some propertyName)))

/-- The supported-name scan agrees with an any-test whenever it returns. -/
theorem supportedHasName_ok (p : String) :
    ∀ (l : List SupportedProp) (found : Bool),
      supportedHasName p l = Except.ok found →
      found = l.any (fun sp => decide (sp.name? = some p))
  | [], found => by
    intro h
    cases h
    simp
  | sp :: rest, found => by
    intro h
    unfold supportedHasName at h
    cases hn : sp.name? with
    | none => rw [hn] at h; exact absurd h (by simp [req])
    | some n =>
      rw [hn] at h
      simp only [req] at h
      by_cases he : n = p
      · rw [if_pos he] at h
        cases h
        simp [hn, he]
      · rw [if_neg he] at h
        have := supportedHasName_ok p rest found h
        simp [hn, he, this]

/-- The has_capability loop agrees with an any-test over `capUsable` whenever
it returns a boolean. -/
theorem hasCapabilityGo_ok (iname pname : String) :
    ∀ (caps : List Capability) (b : Bool),
      hasCapabilityGo iname pname caps = Except.ok b →
      b = caps.any (capUsable iname pname)
  | [], b => by
    intro h
    cases h
    simp
  | cap :: rest, b => by
    intro h
    unfold hasCapabilityGo at h
    cases hi : cap.interfaceName? with
    | none => rw [hi] at h; exact absurd h (by simp [req])
    | some iface =>
      rw [hi] at h
      simp only [req] at h
      by_cases hif : iface = iname
      · rw [if_pos hif] at h
        cases hp : cap.properties? with
        | none =>
          rw [hp] at h
          have := hasCapabilityGo_ok iname pname rest b h
          simp [List.any_cons, capUsable, hp, this]
        | some props =>
          rw [hp] at h
          simp only [] at h
          cases hr : props.retrievable? with
          | none => rw [hr] at h; exact absurd h (by simp [req])
          | some r =>
            rw [hr] at h
            simp only [req] at h
            cases r with
            | true =>
              rw [if_pos rfl] at h
              simp only [if_pos] at h
              cases hs : props.supported? with
              | none => rw [hs] at h; exact absurd h (by simp [req])
              | some sup =>
                rw [hs] at h
                simp only [req] at h
                cases hfind : supportedHasName pname sup with
                | error e => rw [hfind] at h; exact absurd h (by simp)
                | ok found =>
                  rw [hfind] at h
                  simp only [] at h
                  have hfound := supportedHasName_ok pname sup found hfind
                  cases found with
                  | true =>
                    rw [if_pos rfl] at h
                    cases h
                    simp [List.any_cons, capUsable, hi, hif, hp, hr, hs, ← hfound]
                  | false =>
                    rw [if_neg (by simp)] at h
                    have := hasCapabilityGo_ok iname pname rest b h
                    simp [List.any_cons, capUsable, hi, hif, hp, hr, hs,
                      ← hfound, this]
            | false =>
              rw [if_neg (by simp)] at h
              cases hpa : props.proactivelyReported? with
              | none => rw [hpa] at h; exact absurd h (by simp [req])
              | some pa =>
                rw [hpa] at h
                simp only [req] at h
                cases pa with
                | true =>
                  rw [if_pos rfl] at h
                  cases hs : props.supported? with
                  | none => rw [hs] at h; exact absurd h (by simp [req])
                  | some sup =>
                    rw [hs] at h
                    simp only [req] at h
                    cases hfind : supportedHasName pname sup with
                    | error e => rw [hfind] at h; exact absurd h (by simp)
                    | ok found =>
                      rw [hfind] at h
                      simp only [] at h
                      have hfound := supportedHasName_ok pname sup found hfind
                      cases found with
                      | true =>
                        rw [if_pos rfl] at h
                        cases h
                        simp [List.any_cons, capUsable, hi, hif, hp, hr, hpa,
                          hs, ← hfound]
                      | false =>
                        rw [if_neg (by simp)] at h
                        have := hasCapabilityGo_ok iname pname rest b h
                        simp [List.any_cons, capUsable, hi, hif, hp, hr, hpa,
                          hs, ← hfound, this]
                | false =>
                  rw [if_neg (by simp)] at h
                  have := hasCapabilityGo_ok iname pname rest b h
                  simp [List.any_cons, capUsable, hi, hif, hp, hr, hpa, this]
      · rw [if_neg hif] at h
        have := hasCapabilityGo_ok iname pname rest b h
        simp [List.any_cons, capUsable, hi, hif, this]

def capBadC5 : Capability := {}

def capGoodC5 : Capability :=
  { interfaceName? := some "I",
    properties? := some { retrievable? := some true,
                          proactivelyReported? := some false,
                          supported? := some [{ name? := some "p" }] } }

def appC5 : Appliance := { capabilities? := some [capBadC5, capGoodC5] }

/-- C5 counterexample: with a malformed capability ahead of a usable one,
has_capability raises a KeyError instead of returning true, so the claimed
iff between returning true and the existence of a usable capability fails. -/
theorem claim_C5_counterexample :
    ¬ ((has_capability appC5 "I" "p" = Except.ok true) ↔
        ∃ cap ∈ [capBadC5, capGoodC5], capUsable "I" "p" cap = true) := by
  intro hiff
  have hok : has_capability appC5 "I" "p" = Except.ok true :=
    hiff.mpr ⟨capGoodC5, by decide, by decide⟩
  have hE : has_capability appC5 "I" "p" = Except.error "KeyError: interfaceName" := rfl
  rw [hE] at hok
  cases hok

/-- C5 (amended): whenever has_capability returns a boolean (no capability
record it inspects is malformed), that boolean is true iff some capability of
the appliance names the interface, has a non-empty properties object with
retrievable or proactivelyReported true, and lists the property name in its
supported list; unusable capabilities contribute nothing. -/
theorem claim_C5_amended (a : Appliance) (iname pname : String)
    (caps : List Capability) (b : Bool)
    (hcaps : a.capabilities? = some caps)
    (h : has_capability a iname pname = Except.ok b) :
    b = true ↔ ∃ cap ∈ caps, capUsable iname pname cap = true := by
  unfold has_capability at h
  rw [hcaps] at h
  simp only [req] at h
  have hb := hasCapabilityGo_ok iname pname caps b h
  rw [hb]
  simp [List.any_eq_true]

def appC5good : Appliance := { capabilities? := some [capGoodC5] }

/-- Witness for the amended C5 at a concrete appliance with one usable
capability. -/
theorem claim_C5_amended_witness :
    appC5good.capabilities? = some [capGoodC5] ∧
    has_capability appC5good "I" "p" = Except.ok true ∧
    (true = true ↔ ∃ cap ∈ [capGoodC5], capUsable "I" "p" cap = true) := by
  refine ⟨rfl, rfl, ?_⟩
  exact claim_C5_amended appC5good "I" "p" [capGoodC5] true rfl rfl

/-! ## Structural lemmas about the classifier -/

set_option maxRecDepth 100000

